import Mathlib

/-!
Verification of the per-frame synchronization idiom of the `restructuring`
windowing example (`src/bin/restructuring/render/render_loop.rs` and
`renderer.rs`) and of the cached template pipeline of the content server
(`src/lib.rs`) of the vulkano-www repository.

The render loop is embedded as a pure transition function over an explicit
state.  External, device-side outcomes (the result of
`acquire_swapchain_image` and of `then_signal_fence_and_flush`) are inputs
to the transition.  Side effects of one `update` call (rebuilds, waits,
submissions, slot writes, process aborts) are recorded, in program order,
in an event trace so that ordering claims can be stated.
-/

/-- Result of `Renderer::acquire_swapchain_image`
(`renderer.rs` lines 194-198, a thin wrapper over
`swapchain::acquire_next_image`): either a successful acquisition carrying
the image index and the `suboptimal` flag, the recoverable
`AcquireError::OutOfDate`, or any other `AcquireError`. -/
inductive AcquireResult where
  | ok (image_i : Nat) (suboptimal : Bool)
  | outOfDate
  | otherError
deriving DecidableEq, Repr

/-- Result of `Renderer::flush_next_future` (`renderer.rs` lines 207-225):
a successfully flushed fence, the recoverable `FlushError::OutOfDate`, or
any other `FlushError`. -/
inductive FlushResult where
  | ok
  | outOfDate
  | otherError
deriving DecidableEq, Repr

/-- Syntax of the GPU futures built by the render loop.  Completion
signals (`Fence`, i.e. `FenceSignalFuture`) are identified by the natural
number of the submission that created them; `now` is the
immediately-satisfied future returned by `Renderer::synchronize`;
`acquireF` stands for the `SwapchainAcquireFuture` of the current cycle;
`join`, `exec` and `present` mirror `join`, `then_execute` (with the
command buffer at the given index) and `then_swapchain_present` (of the
given image index). -/
inductive GpuF where
  | now
  | fence (f : Nat)
  | acquireF
  | join (a b : GpuF)
  | exec (g : GpuF) (cb_i : Nat)
  | present (g : GpuF) (image_i : Nat)
deriving DecidableEq, Repr

/-- Model of `Renderer::synchronize` (`renderer.rs` lines 200-205): the
immediately-satisfied `sync::now` future. -/
def Renderer.synchronize : GpuF := GpuF.now

/-- Model of `Renderer::flush_next_future` (`renderer.rs` lines 207-225):
`previous_future.join(swapchain_acquire_future)
  .then_execute(queue, command_buffers[image_i])
  .then_swapchain_present(queue, image_i)
  .then_signal_fence_and_flush()`.
The returned value is the future submitted to the device; whether the
flush yields a fence or an error is the external `FlushResult` input of
the transition. -/
def Renderer.flush_next_future (previous_future : GpuF) (swapchain_acquire_future : GpuF)
    (image_i : Nat) : GpuF :=
  GpuF.present (GpuF.exec (GpuF.join previous_future swapchain_acquire_future) image_i) image_i

/-- Observable side effects of one `RenderLoop::update` call, in program
order.  `handleResize` is `Renderer::handle_window_resize` (which rebuilds
the swapchain bundle: swapchain, framebuffers, viewport-dependent pipeline
and command buffers); `recreateSwapchain` is `Renderer::recreate_swapchain`;
`acquire` is the call to `Renderer::acquire_swapchain_image`;
`waitFence f` is `fence.wait(None)` on the completion signal `f`, which
blocks until `f` resolves; `submit prev i` is the call
`flush_next_future(prev, acquire_future, i)`; `setSlot i v` is the
assignment `self.fences[i] = v`; `printError` is the `println!` on a
non-out-of-date flush error; `fatal` is the `panic!` aborting the
process. -/
inductive Event where
  | handleResize
  | recreateSwapchain
  | acquire
  | waitFence (f : Nat)
  | submit (previous_future : GpuF) (image_i : Nat)
  | setSlot (i : Nat) (v : Option Nat)
  | printError
  | fatal
deriving DecidableEq, Repr

/-- Test for the two events that rebuild the swapchain bundle before
acquisition. -/
def Event.isRebuild : Event → Bool
  | .handleResize => true
  | .recreateSwapchain => true
  | _ => false

/-- Test for a wait on a stored completion signal. -/
def Event.isWait : Event → Bool
  | .waitFence _ => true
  | _ => false

/-- Test for a submission (command-buffer execution plus presentation
request) targeting any image index. -/
def Event.isSubmit : Event → Bool
  | .submit _ _ => true
  | _ => false

/-- Test for a mutation of a fence slot. -/
def Event.isSetSlot : Event → Bool
  | .setSlot _ _ => true
  | _ => false

/-- State of `RenderLoop` (`render_loop.rs` lines 9-15).  A completion
signal (`Arc<Fence>`) is identified by the number of the submission that
created it; `next_fence` counts submissions so that each successful flush
stores a fresh signal (it models fence identity, not a Rust field). -/
structure RenderLoop where
  recreate_swapchain : Bool
  window_resized : Bool
  fences : List (Option Nat)
  previous_fence_i : Nat
  next_fence : Nat
deriving DecidableEq, Repr

/-- Read of `self.fences[i]` (a `None` entry is an empty slot). -/
def slotGet (l : List (Option Nat)) (i : Nat) : Option Nat :=
  match l.get? i with
  | some v => v
  | none => none

/-- Model of `RenderLoop::new` (`render_loop.rs` lines 18-30):
`frames_in_flight` empty fence slots, both flags clear, previous frame
index 0. -/
def RenderLoop.new (frames_in_flight : Nat) : RenderLoop :=
  { recreate_swapchain := false
    window_resized := false
    fences := List.replicate frames_in_flight none
    previous_fence_i := 0
    next_fence := 0 }

/-- Model of `RenderLoop::handle_window_resize` (`render_loop.rs` lines
96-99): records the resize flag only, impacting the next update. -/
def RenderLoop.handle_window_resize (s : RenderLoop) : RenderLoop :=
  { s with window_resized := true }

/-- Rebuild phase at the top of `RenderLoop::update` (`render_loop.rs`
lines 33-41): a pending resize clears both flags and rebuilds the whole
swapchain bundle via `Renderer::handle_window_resize`; otherwise a pending
`recreate_swapchain` flag clears itself and recreates the swapchain.
(When `window_resized` is set the code also sets `recreate_swapchain` to
`false`, so the second `if` of the source is never entered in that case.) -/
def RenderLoop.preRebuild (s : RenderLoop) : RenderLoop × List Event :=
  if s.window_resized then
    ({ s with window_resized := false, recreate_swapchain := false }, [Event.handleResize])
  else if s.recreate_swapchain then
    ({ s with recreate_swapchain := false }, [Event.recreateSwapchain])
  else (s, [])

/-- Model of `RenderLoop::update` (`render_loop.rs` lines 32-94).  The
external inputs are the acquisition result and the flush result of this
cycle.  Returns the state after the call (`none` when the call panicked,
terminating the process) together with the trace of this cycle's events
in program order.  `something_needs_all_gpu_resources` is the constant
`false` of line 62. -/
def RenderLoop.update (s : RenderLoop) (acq : AcquireResult) (flushRes : FlushResult) :
    Option RenderLoop × List Event :=
  let (s1, pre) := s.preRebuild
  match acq with
  | .outOfDate =>
      (some { s1 with recreate_swapchain := true }, pre ++ [Event.acquire])
  | .otherError =>
      (none, pre ++ [Event.acquire, Event.fatal])
  | .ok image_i suboptimal =>
      let s2 := if suboptimal then { s1 with recreate_swapchain := true } else s1
      let waitEvs : List Event :=
        match slotGet s2.fences image_i with
        | some image_fence => [Event.waitFence image_fence]
        | none => []
      let something_needs_all_gpu_resources := false
      let previous_future : GpuF :=
        match slotGet s2.fences s2.previous_fence_i with
        | none => Renderer.synchronize
        | some fence => GpuF.fence fence
      let prevWaitEvs : List Event :=
        match slotGet s2.fences s2.previous_fence_i with
        | none => []
        | some fence =>
            if something_needs_all_gpu_resources then [Event.waitFence fence] else []
      let submitEv := Event.submit previous_future image_i
      match flushRes with
      | .ok =>
          (some { s2 with
              fences := s2.fences.set image_i (some s2.next_fence)
              next_fence := s2.next_fence + 1
              previous_fence_i := image_i },
           pre ++ [Event.acquire] ++ waitEvs ++ prevWaitEvs
             ++ [submitEv, Event.setSlot image_i (some s2.next_fence)])
      | .outOfDate =>
          (some { s2 with
              fences := s2.fences.set image_i none
              recreate_swapchain := true
              previous_fence_i := image_i },
           pre ++ [Event.acquire] ++ waitEvs ++ prevWaitEvs
             ++ [submitEv, Event.setSlot image_i none])
      | .otherError =>
          (some { s2 with
              fences := s2.fences.set image_i none
              previous_fence_i := image_i },
           pre ++ [Event.acquire] ++ waitEvs ++ prevWaitEvs
             ++ [submitEv, Event.printError, Event.setSlot image_i none])

/-!
Content server (`src/lib.rs`).  The three template functions
`main_template`, `guide_template` and `guide_template_markdown` each hold
a process-wide `CACHE: Mutex<HashMap<String, String>>` keyed by the body
string passed in.  The external renderers — the compiled mustache
templates and the pulldown-cmark Markdown-to-HTML conversion — are pure
functions of the body and are parameters of the embedding; the contents
of the `content/` files pulled in by `include_str!` are likewise a
parameter mapping the include path to the file text (the `content/`
directory is data, not code, and only its paths appear in the source).
The single-threaded request semantics (each handler locks, reads or
fills, and unlocks each cache in turn) is embedded as explicit state
passing of the three caches.
-/

/-- External pure renderers: `MAIN_TEMPLATE.render_data` with `body`
bound (for `main_template`), `GUIDE_TEMPLATE.render_data` with `body`
bound (for `guide_template`), and `pulldown_cmark::html::push_html` of a
parse of the body (for `guide_template_markdown`). -/
structure Renders where
  renderMain : String → String
  renderGuide : String → String
  renderMd : String → String

/-- Cache states of the three `lazy_static` `CACHE` maps, one per
template function, each mapping a body string to its rendered HTML. -/
structure Caches where
  mainC : List (String × String)
  guideC : List (String × String)
  mdC : List (String × String)
deriving DecidableEq, Repr

/-- Empty caches: process start, before any request. -/
def Caches.empty : Caches := ⟨[], [], []⟩

/-- Lookup of a key in an association list, modelling `HashMap::entry`
finding an occupied entry. -/
def assocFind (k : String) : List (String × String) → Option String
  | [] => none
  | (k', v) :: rest => if k' = k then some v else assocFind k rest

/-- Rouille `Response`: the HTML body and the HTTP status code. -/
structure Response where
  body : String
  status : Nat
deriving DecidableEq, Repr

/-- Model of `Response::html`: an HTML response with status 200. -/
def Response.html (body : String) : Response := ⟨body, 200⟩

/-- Model of `Response::with_status_code`. -/
def Response.with_status_code (r : Response) (code : Nat) : Response :=
  { r with status := code }

/-- Model of `main_template` (`src/lib.rs` lines 157-186): on a cache
miss the mustache main template is rendered with `body` and the result
inserted keyed by `body`; on a hit the stored HTML is reused; either way
the response is `Response::html` of the cached HTML. -/
def main_template (R : Renders) (c : Caches) (body : String) : Response × Caches :=
  match assocFind body c.mainC with
  | some html => (Response.html html, c)
  | none =>
      let html := R.renderMain body
      (Response.html html, { c with mainC := (body, html) :: c.mainC })

/-- Model of `guide_template` (`src/lib.rs` lines 190-219): on a cache
miss the mustache guide template is rendered with `body` and cached keyed
by `body`; the resulting HTML is then passed to `main_template`. -/
def guide_template (R : Renders) (c : Caches) (body : String) : Response × Caches :=
  match assocFind body c.guideC with
  | some html => main_template R c html
  | none =>
      let html := R.renderGuide body
      main_template R { c with guideC := (body, html) :: c.guideC } html

/-- Model of `guide_template_markdown` (`src/lib.rs` lines 222-243): on a
cache miss the Markdown `body` is converted to HTML and cached keyed by
`body`; the resulting HTML is then passed to `guide_template`. -/
def guide_template_markdown (R : Renders) (c : Caches) (body : String) : Response × Caches :=
  match assocFind body c.mdC with
  | some html => guide_template R c html
  | none =>
      let html := R.renderMd body
      guide_template R { c with mdC := (body, html) :: c.mdC } html

/-- Target of one route of the `router!` table: a plain page fed to
`main_template`, a guide page fed to `guide_template_markdown`, or the
default 404 branch; pages carry the `include_str!` path of their
content file. -/
inductive RouteTarget where
  | page (file : String)
  | guidePage (file : String)
  | notFound
deriving DecidableEq, Repr

/-- Dispatch table of `routes` (`src/lib.rs` lines 48-153): the literal
`(GET) (path)` patterns of the `router!` invocation paired with the
`include_str!` argument each arm passes to its template function; any
other method or path falls to the default 404 branch. -/
def routeOf (method path : String) : RouteTarget :=
  if method = "GET" then
    if path = "/" then .page "../content/home.html"
    else if path = "/donate" then .page "../content/donate.html"
    else if path = "/guide/introduction" then
      .guidePage "../content/guide/introduction/introduction.md"
    else if path = "/guide/initialization" then
      .guidePage "../content/guide/initialization/initialization.md"
    else if path = "/guide/device-creation" then
      .guidePage "../content/guide/initialization/device-creation.md"
    else if path = "/guide/buffer-creation" then
      .guidePage "../content/guide/buffer_creation/buffer_creation.md"
    else if path = "/guide/example-operation" then
      .guidePage "../content/guide/buffer_creation/example_operation.md"
    else if path = "/guide/compute-intro" then
      .guidePage "../content/guide/compute_pipeline/compute_intro.md"
    else if path = "/guide/compute-pipeline" then
      .guidePage "../content/guide/compute_pipeline/compute_pipeline.md"
    else if path = "/guide/descriptor-sets" then
      .guidePage "../content/guide/compute_pipeline/descriptor_sets.md"
    else if path = "/guide/dispatch" then
      .guidePage "../content/guide/compute_pipeline/dispatch.md"
    else if path = "/guide/image-creation" then
      .guidePage "../content/guide/images/image_creation.md"
    else if path = "/guide/image-clear" then
      .guidePage "../content/guide/images/image_clear.md"
    else if path = "/guide/image-export" then
      .guidePage "../content/guide/images/image_export.md"
    else if path = "/guide/mandelbrot" then
      .guidePage "../content/guide/images/mandelbrot.md"
    else if path = "/guide/what-graphics-pipeline" then
      .guidePage "../content/guide/graphics_pipeline/introduction.md"
    else if path = "/guide/vertex-input" then
      .guidePage "../content/guide/graphics_pipeline/vertex_shader.md"
    else if path = "/guide/fragment-shader" then
      .guidePage "../content/guide/graphics_pipeline/fragment_shader.md"
    else if path = "/guide/render-pass-framebuffer" then
      .guidePage "../content/guide/graphics_pipeline/render_pass_framebuffer.md"
    else if path = "/guide/graphics-pipeline-creation" then
      .guidePage "../content/guide/graphics_pipeline/pipeline_creation.md"
    else if path = "/guide/windowing" then
      .guidePage "../content/guide/windowing/introduction.md"
    else if path = "/guide/windowing/introduction" then
      .guidePage "../content/guide/windowing/introduction.md"
    else if path = "/guide/windowing/swapchain-creation" then
      .guidePage "../content/guide/windowing/swapchain_creation.md"
    else if path = "/guide/windowing/other-initialization" then
      .guidePage "../content/guide/windowing/other_initialization.md"
    else if path = "/guide/windowing/event-handling" then
      .guidePage "../content/guide/windowing/event_handling.md"
    else if path = "/guide/memory" then
      .guidePage "../content/guide/wip/memory.md"
    else .notFound
  else .notFound

/-- Model of `routes` (`src/lib.rs` lines 48-153): dispatch the request
through the route table; `contents` maps an `include_str!` path to the
text of that content file. -/
def routes (R : Renders) (contents : String → String) (c : Caches)
    (method path : String) : Response × Caches :=
  match routeOf method path with
  | .page file => main_template R c (contents file)
  | .guidePage file => guide_template_markdown R c (contents file)
  | .notFound =>
      let (r, c') := main_template R c (contents "../content/404.html")
      (r.with_status_code 404, c')

/-!
Helper lemmas about the rebuild phase, slot access and the shape of an
update trace.  These are shared infrastructure for the claim theorems.
-/

theorem preRebuild_fences (s : RenderLoop) : (s.preRebuild).1.fences = s.fences := by
  unfold RenderLoop.preRebuild
  split
  · rfl
  · split <;> rfl

theorem preRebuild_previous (s : RenderLoop) :
    (s.preRebuild).1.previous_fence_i = s.previous_fence_i := by
  unfold RenderLoop.preRebuild
  split
  · rfl
  · split <;> rfl

theorem preRebuild_next (s : RenderLoop) : (s.preRebuild).1.next_fence = s.next_fence := by
  unfold RenderLoop.preRebuild
  split
  · rfl
  · split <;> rfl

theorem preRebuild_events_rebuild (s : RenderLoop) :
    ∀ e ∈ (s.preRebuild).2, e.isRebuild = true := by
  unfold RenderLoop.preRebuild
  split
  · intro e he; simp at he; subst he; rfl
  · split
    · intro e he; simp at he; subst he; rfl
    · intro e he; simp at he

theorem preRebuild_nonempty_of_recreate (s : RenderLoop)
    (h : s.recreate_swapchain = true) : (s.preRebuild).2 ≠ [] := by
  unfold RenderLoop.preRebuild
  split
  · simp
  · rename_i hw
    simp [h]

theorem preRebuild_resize_mem (s : RenderLoop) (h : s.window_resized = true) :
    Event.handleResize ∈ (s.preRebuild).2 := by
  unfold RenderLoop.preRebuild
  simp [h]

theorem isRebuild_spec (e : Event) (h : e.isRebuild = true) :
    e.isSubmit = false ∧ e.isSetSlot = false ∧ e.isWait = false ∧ e ≠ Event.fatal := by
  cases e <;> simp_all [Event.isRebuild, Event.isSubmit, Event.isSetSlot, Event.isWait]

theorem slotGet_cons_zero (x : Option Nat) (t : List (Option Nat)) : slotGet (x :: t) 0 = x := rfl

theorem slotGet_cons_succ (x : Option Nat) (t : List (Option Nat)) (i : Nat) :
    slotGet (x :: t) (i + 1) = slotGet t i := rfl

theorem slotGet_set_self : ∀ (l : List (Option Nat)) (i : Nat) (v : Option Nat),
    i < l.length → slotGet (l.set i v) i = v
  | [], i, v, h => by simp at h
  | _ :: _, 0, v, _ => rfl
  | x :: xs, i + 1, v, h =>
      slotGet_set_self xs i v (Nat.lt_of_succ_lt_succ (by simpa using h))

theorem slotGet_set_ne : ∀ (l : List (Option Nat)) (i j : Nat) (v : Option Nat),
    i ≠ j → slotGet (l.set i v) j = slotGet l j
  | [], _, _, _, _ => rfl
  | x :: xs, 0, 0, v, h => absurd rfl h
  | x :: xs, 0, j + 1, v, _ => rfl
  | x :: xs, i + 1, 0, v, _ => rfl
  | x :: xs, i + 1, j + 1, v, h =>
      slotGet_set_ne xs i j v (fun hij => h (congrArg Nat.succ hij))

theorem slotGet_replicate (n i : Nat) : slotGet (List.replicate n none) i = none := by
  induction n generalizing i with
  | zero => rfl
  | succ m ih =>
      cases i with
      | zero => rfl
      | succ k => exact ih k

/-- Shape of every update trace: the rebuild events of the pending flags,
then the acquisition, then events none of which is a rebuild. -/
theorem update_trace_shape (s : RenderLoop) (acq : AcquireResult) (fr : FlushResult) :
    ∃ rest, (s.update acq fr).2 = (s.preRebuild).2 ++ Event.acquire :: rest ∧
      ∀ e ∈ rest, e.isRebuild = false := by
  rcases hpre : s.preRebuild with ⟨s1, pre⟩
  cases acq with
  | outOfDate => exact ⟨[], by simp [RenderLoop.update, hpre], by simp⟩
  | otherError => exact ⟨[Event.fatal], by simp [RenderLoop.update, hpre], by simp [Event.isRebuild]⟩
  | ok i sub =>
      simp only [RenderLoop.update, hpre]
      cases hw : slotGet (if sub then { s1 with recreate_swapchain := true } else s1).fences i with
      | some f =>
          cases hp : slotGet (if sub then { s1 with recreate_swapchain := true } else s1).fences
              (if sub then { s1 with recreate_swapchain := true } else s1).previous_fence_i with
          | some g =>
              cases fr <;>
                refine ⟨_, by simp [hw, hp]; try rfl, ?_⟩ <;>
                  (intro e he; fin_cases he <;> rfl)
          | none =>
              cases fr <;>
                refine ⟨_, by simp [hw, hp]; try rfl, ?_⟩ <;>
                  (intro e he; fin_cases he <;> rfl)
      | none =>
          cases hp : slotGet (if sub then { s1 with recreate_swapchain := true } else s1).fences
              (if sub then { s1 with recreate_swapchain := true } else s1).previous_fence_i with
          | some g =>
              cases fr <;>
                refine ⟨_, by simp [hw, hp]; try rfl, ?_⟩ <;>
                  (intro e he; fin_cases he <;> rfl)
          | none =>
              cases fr <;>
                refine ⟨_, by simp [hw, hp]; try rfl, ?_⟩ <;>
                  (intro e he; fin_cases he <;> rfl)

/-- Characterization of an update cycle whose acquisition succeeded with
index `i`: the call never panics, the slot at `i` is overwritten (with the
fresh signal on a successful flush, with `None` otherwise), the previous
frame index advances to `i`, an out-of-date flush raises the rebuild flag,
and the trace is the pending rebuilds, the acquisition, the wait on the
slot's stored signal if any, the submission joined with the previous
slot's signal, the error print on a non-out-of-date flush error, and the
slot write. -/
theorem update_ok_spec (s : RenderLoop) (i : Nat) (sub : Bool) (fr : FlushResult) :
    ∃ s', (s.update (.ok i sub) fr).1 = some s' ∧
      s'.fences = s.fences.set i (if fr = FlushResult.ok then some s.next_fence else none) ∧
      s'.previous_fence_i = i ∧
      s'.next_fence = (if fr = FlushResult.ok then s.next_fence + 1 else s.next_fence) ∧
      (fr = FlushResult.outOfDate → s'.recreate_swapchain = true) ∧
      (s.update (.ok i sub) fr).2 =
        (s.preRebuild).2 ++ [Event.acquire]
          ++ (match slotGet s.fences i with
              | some f => [Event.waitFence f]
              | none => [])
          ++ [Event.submit (match slotGet s.fences s.previous_fence_i with
                            | none => GpuF.now
                            | some f => GpuF.fence f) i]
          ++ (if fr = FlushResult.otherError then [Event.printError] else [])
          ++ [Event.setSlot i (if fr = FlushResult.ok then some s.next_fence else none)] := by
  rcases hpre : s.preRebuild with ⟨s1, pre⟩
  have hs1 : s1 = (s.preRebuild).1 := by rw [hpre]
  have hfen : s1.fences = s.fences := by rw [hs1]; exact preRebuild_fences s
  have hprev : s1.previous_fence_i = s.previous_fence_i := by
    rw [hs1]; exact preRebuild_previous s
  have hnext : s1.next_fence = s.next_fence := by rw [hs1]; exact preRebuild_next s
  have hpre2 : pre = (s.preRebuild).2 := by rw [hpre]
  simp only [RenderLoop.update, hpre]
  cases sub <;> cases fr <;>
    simp only [if_true, if_false, Bool.false_eq_true, Bool.true_eq_false, ite_true, ite_false,
      hfen, hprev, hnext, hpre2] <;>
    rcases h2 : slotGet s.fences i with _ | f2 <;>
      rcases h3 : slotGet s.fences s.previous_fence_i with _ | f3 <;>
        exact ⟨_, rfl, by simp [hfen, hnext], by simp [hprev], by simp [hnext], by simp,
          by simp [h2, h3, Renderer.synchronize]⟩

/-- Characterization of an update cycle whose acquisition returned
`OutOfDate`: the rebuild flag is raised, nothing else changes, and the
trace is just the pending rebuilds and the failed acquisition. -/
theorem update_outOfDate_spec (s : RenderLoop) (fr : FlushResult) :
    ∃ s', (s.update .outOfDate fr).1 = some s' ∧
      s'.recreate_swapchain = true ∧
      s'.fences = s.fences ∧
      s'.previous_fence_i = s.previous_fence_i ∧
      s'.next_fence = s.next_fence ∧
      (s.update .outOfDate fr).2 = (s.preRebuild).2 ++ [Event.acquire] := by
  rcases hpre : s.preRebuild with ⟨s1, pre⟩
  have hs1 : s1 = (s.preRebuild).1 := by rw [hpre]
  have hp2 : (s.preRebuild).2 = pre := by rw [hpre]
  have hu : s.update .outOfDate fr =
      (some { s1 with recreate_swapchain := true }, pre ++ [Event.acquire]) := by
    unfold RenderLoop.update
    rw [hpre]
  refine ⟨{ s1 with recreate_swapchain := true }, by rw [hu], rfl, ?_, ?_, ?_,
    by rw [hu]⟩
  · show s1.fences = s.fences
    rw [hs1]; exact preRebuild_fences s
  · show s1.previous_fence_i = s.previous_fence_i
    rw [hs1]; exact preRebuild_previous s
  · show s1.next_fence = s.next_fence
    rw [hs1]; exact preRebuild_next s

/-- Characterization of an update cycle whose acquisition failed with an
error other than `OutOfDate`: the call panics (the process terminates)
after the pending rebuilds and the failed acquisition. -/
theorem update_acqErr_spec (s : RenderLoop) (fr : FlushResult) :
    (s.update .otherError fr).1 = none ∧
    (s.update .otherError fr).2 = (s.preRebuild).2 ++ [Event.acquire, Event.fatal] := by
  rcases hpre : s.preRebuild with ⟨s1, pre⟩
  have hp2 : (s.preRebuild).2 = pre := by rw [hpre]
  have hu : s.update .otherError fr = (none, pre ++ [Event.acquire, Event.fatal]) := by
    unfold RenderLoop.update
    rw [hpre]
  exact ⟨by rw [hu], by rw [hu]⟩

/-- Events preceding the first wait of a cycle (the pending rebuilds and
the acquisition) are no submission, no slot write, no wait and no
abort. -/
theorem pre_acquire_inert (s : RenderLoop) (e : Event)
    (he : e ∈ (s.preRebuild).2 ++ [Event.acquire]) :
    e.isSubmit = false ∧ e.isSetSlot = false ∧ e.isWait = false ∧ e ≠ Event.fatal := by
  rcases List.mem_append.mp he with h | h
  · exact isRebuild_spec e (preRebuild_events_rebuild s e h)
  · simp at h; subst h; exact ⟨rfl, rfl, rfl, by decide⟩

/-- C1: for every cycle of `RenderLoop::update`, if the frame slot at the
acquired image index holds a completion signal stored by a previous
cycle, that signal is waited on to resolution before the command buffer
for that index is submitted, and the slot is neither mutated nor
resubmitted before that wait: in the cycle's trace, every submission and
every slot write comes after the wait on the stored signal. -/
theorem C1_slot_waited_before_submit_and_mutation (s : RenderLoop) (i : Nat) (sub : Bool)
    (fr : FlushResult) (f : Nat) (hf : slotGet s.fences i = some f) :
    ∃ l₁ l₂, (s.update (.ok i sub) fr).2 = l₁ ++ Event.waitFence f :: l₂ ∧
      (∀ e ∈ l₁, e.isSubmit = false ∧ e.isSetSlot = false) ∧
      (∃ p, Event.submit p i ∈ l₂) ∧ (∃ v, Event.setSlot i v ∈ l₂) := by
  obtain ⟨s', hs', hfen, hprev, hnext, hrc, htr⟩ := update_ok_spec s i sub fr
  refine ⟨(s.preRebuild).2 ++ [Event.acquire],
    [Event.submit (match slotGet s.fences s.previous_fence_i with
                   | none => GpuF.now
                   | some g => GpuF.fence g) i]
      ++ (if fr = FlushResult.otherError then [Event.printError] else [])
      ++ [Event.setSlot i (if fr = FlushResult.ok then some s.next_fence else none)],
    ?_, ?_, ?_, ?_⟩
  · rw [htr, hf]
    simp [List.append_assoc, Renderer.synchronize]
  · intro e he
    have h := pre_acquire_inert s e he
    exact ⟨h.1, h.2.1⟩
  · exact ⟨match slotGet s.fences s.previous_fence_i with
           | none => GpuF.now
           | some g => GpuF.fence g, by simp⟩
  · exact ⟨if fr = FlushResult.ok then some s.next_fence else none, by simp⟩

/-- Witness for C1 at a concrete state: slot 0 holds signal 5, and the
cycle waits on it before the submission and the slot write. -/
theorem C1_witness :
    slotGet (⟨false, false, [some 5, none], 0, 7⟩ : RenderLoop).fences 0 = some 5 ∧
    ∃ l₁ l₂, ((⟨false, false, [some 5, none], 0, 7⟩ : RenderLoop).update
          (.ok 0 false) .ok).2 = l₁ ++ Event.waitFence 5 :: l₂ ∧
      (∀ e ∈ l₁, e.isSubmit = false ∧ e.isSetSlot = false) ∧
      (∃ p, Event.submit p 0 ∈ l₂) ∧ (∃ v, Event.setSlot 0 v ∈ l₂) :=
  ⟨rfl, C1_slot_waited_before_submit_and_mutation _ 0 false .ok 5 rfl⟩

/-- C2: an update cycle whose acquisition returns `OutOfDate` sets the
rebuild flag and performs no wait, no submission and no slot write, and
whatever results the next update call is given, a nonempty block of
rebuild events precedes its re-attempted acquisition. -/
theorem C2_out_of_date_skips_cycle_then_rebuilds (s : RenderLoop) (fr : FlushResult) :
    ∃ s', (s.update .outOfDate fr).1 = some s' ∧
      s'.recreate_swapchain = true ∧
      s'.fences = s.fences ∧
      (∀ e ∈ (s.update .outOfDate fr).2,
        e.isWait = false ∧ e.isSubmit = false ∧ e.isSetSlot = false) ∧
      (∀ acq' fr', ∃ l₁ rest, (s'.update acq' fr').2 = l₁ ++ Event.acquire :: rest ∧
        l₁ ≠ [] ∧ (∀ e ∈ l₁, e.isRebuild = true)) := by
  obtain ⟨s', h1, hrc, hfen, hprev, hnext, htr⟩ := update_outOfDate_spec s fr
  refine ⟨s', h1, hrc, hfen, ?_, ?_⟩
  · intro e he
    rw [htr] at he
    have h := pre_acquire_inert s e he
    exact ⟨h.2.2.1, h.1, h.2.1⟩
  · intro acq' fr'
    obtain ⟨rest, hsh, -⟩ := update_trace_shape s' acq' fr'
    exact ⟨(s'.preRebuild).2, rest, hsh, preRebuild_nonempty_of_recreate s' hrc,
      preRebuild_events_rebuild s'⟩

/-- C4: every cycle that reaches submission stores the new completion
signal in the frame slot at the acquired index on a successful flush,
clears that slot on an out-of-date flush failure, and advances the
previous frame index to the acquired index. -/
theorem C4_bookkeeping_after_submission (s : RenderLoop) (i : Nat) (sub : Bool)
    (fr : FlushResult) (hi : i < s.fences.length) :
    ∃ s', (s.update (.ok i sub) fr).1 = some s' ∧
      s'.previous_fence_i = i ∧
      (fr = FlushResult.ok → slotGet s'.fences i = some s.next_fence) ∧
      (fr = FlushResult.outOfDate → slotGet s'.fences i = none) := by
  obtain ⟨s', h1, hfen, hprev, hnext, hrc, htr⟩ := update_ok_spec s i sub fr
  refine ⟨s', h1, hprev, ?_, ?_⟩
  · intro h
    subst h
    rw [hfen]
    simpa using slotGet_set_self s.fences i _ hi
  · intro h
    subst h
    rw [hfen]
    simpa using slotGet_set_self s.fences i _ hi

/-- Witness for C4 at a concrete run: three empty slots, acquisition of
index 1, successful flush. -/
theorem C4_witness :
    1 < (RenderLoop.new 3).fences.length ∧
    ∃ s', ((RenderLoop.new 3).update (.ok 1 false) .ok).1 = some s' ∧
      s'.previous_fence_i = 1 ∧
      (FlushResult.ok = FlushResult.ok →
        slotGet s'.fences 1 = some (RenderLoop.new 3).next_fence) ∧
      (FlushResult.ok = FlushResult.outOfDate → slotGet s'.fences 1 = none) :=
  ⟨by decide, C4_bookkeeping_after_submission (RenderLoop.new 3) 1 false .ok (by decide)⟩

/-- C6: `RenderLoop::handle_window_resize` only records the
`window_resized` flag, and in every update cycle the rebuild work sits
before the acquisition in the trace — no rebuild event ever occurs past
the acquisition; a pending resize flag is honoured by a
`handle_window_resize` rebuild at the very start of the next cycle. -/
theorem C6_resize_defers_rebuild_to_cycle_start (s : RenderLoop) (acq : AcquireResult)
    (fr : FlushResult) :
    s.handle_window_resize = { s with window_resized := true } ∧
    (∃ rest, (s.update acq fr).2 = (s.preRebuild).2 ++ Event.acquire :: rest ∧
      ∀ e ∈ rest, e.isRebuild = false) ∧
    (s.window_resized = true → Event.handleResize ∈ (s.preRebuild).2) :=
  ⟨rfl, update_trace_shape s acq fr, preRebuild_resize_mem s⟩

/-- C7: every submission joins the previous frame slot's completion
signal — or the immediately-satisfied `synchronize` future when that slot
is empty — with the cycle's acquisition future, executes the command
buffer at the acquired index, presents that index, and either stores a
fresh completion signal (successful flush) or raises the rebuild flag
without aborting the process (out-of-date flush). -/
theorem C7_submission_joins_executes_presents (s : RenderLoop) (i : Nat) (sub : Bool)
    (fr : FlushResult) (hi : i < s.fences.length) :
    ∃ prevF, prevF = (match slotGet s.fences s.previous_fence_i with
        | none => Renderer.synchronize
        | some f => GpuF.fence f) ∧
      Event.submit prevF i ∈ (s.update (.ok i sub) fr).2 ∧
      Renderer.flush_next_future prevF GpuF.acquireF i =
        GpuF.present (GpuF.exec (GpuF.join prevF GpuF.acquireF) i) i ∧
      ∃ s', (s.update (.ok i sub) fr).1 = some s' ∧
        (fr = FlushResult.ok →
          slotGet s'.fences i = some s.next_fence ∧ s.next_fence < s'.next_fence) ∧
        (fr = FlushResult.outOfDate →
          s'.recreate_swapchain = true ∧ slotGet s'.fences i = none) := by
  obtain ⟨s', h1, hfen, hprev, hnext, hrc, htr⟩ := update_ok_spec s i sub fr
  refine ⟨_, rfl, ?_, rfl, s', h1, ?_, ?_⟩
  · rw [htr]
    rcases h3 : slotGet s.fences s.previous_fence_i with _ | f3 <;>
      simp [h3, Renderer.synchronize]
  · intro h
    subst h
    rw [hfen, hnext]
    simp only [if_pos rfl]
    exact ⟨by simpa using slotGet_set_self s.fences i _ hi, Nat.lt_succ_self _⟩
  · intro h
    subst h
    refine ⟨hrc rfl, ?_⟩
    rw [hfen]
    simpa using slotGet_set_self s.fences i _ hi

/-- Witness for C7 at a concrete run: three empty slots, acquisition of
index 0, successful flush — the submission joins the `now` future with
the acquisition future. -/
theorem C7_witness :
    0 < (RenderLoop.new 3).fences.length ∧
    ∃ prevF, prevF = (match slotGet (RenderLoop.new 3).fences
          (RenderLoop.new 3).previous_fence_i with
        | none => Renderer.synchronize
        | some f => GpuF.fence f) ∧
      Event.submit prevF 0 ∈ ((RenderLoop.new 3).update (.ok 0 false) .ok).2 ∧
      Renderer.flush_next_future prevF GpuF.acquireF 0 =
        GpuF.present (GpuF.exec (GpuF.join prevF GpuF.acquireF) 0) 0 ∧
      ∃ s', ((RenderLoop.new 3).update (.ok 0 false) .ok).1 = some s' ∧
        (FlushResult.ok = FlushResult.ok →
          slotGet s'.fences 0 = some (RenderLoop.new 3).next_fence ∧
            (RenderLoop.new 3).next_fence < s'.next_fence) ∧
        (FlushResult.ok = FlushResult.outOfDate →
          s'.recreate_swapchain = true ∧ slotGet s'.fences 0 = none) :=
  ⟨by decide, C7_submission_joins_executes_presents (RenderLoop.new 3) 0 false .ok (by decide)⟩

/-- C10: a returning update call keeps the number of fence slots, leaves
every slot other than the acquired index untouched, and on an early
out-of-date acquisition return modifies neither any fence slot nor the
previous frame index. -/
theorem C10_update_touches_one_slot (s : RenderLoop) (acq : AcquireResult) (fr : FlushResult)
    (s' : RenderLoop) (h : (s.update acq fr).1 = some s') :
    s'.fences.length = s.fences.length ∧
    (acq = .outOfDate → s'.fences = s.fences ∧ s'.previous_fence_i = s.previous_fence_i) ∧
    (∀ i sub, acq = .ok i sub → ∀ j, j ≠ i → slotGet s'.fences j = slotGet s.fences j) := by
  cases acq with
  | outOfDate =>
      obtain ⟨s'', h1, hrc, hfen, hprev, hnext, htr⟩ := update_outOfDate_spec s fr
      rw [h1] at h
      injection h with h
      subst h
      exact ⟨by rw [hfen], fun _ => ⟨hfen, hprev⟩, by intro i sub hC; cases hC⟩
  | otherError =>
      rw [(update_acqErr_spec s fr).1] at h
      cases h
  | ok i sub =>
      obtain ⟨s'', h1, hfen, hprev, hnext, hrc, htr⟩ := update_ok_spec s i sub fr
      rw [h1] at h
      injection h with h
      subst h
      refine ⟨?_, ?_, ?_⟩
      · rw [hfen]; simp
      · intro hC; cases hC
      intro i' sub' heq j hj
      injection heq with hi' hsub'
      subst hi'
      rw [hfen]
      exact slotGet_set_ne s.fences i j _ (fun hij => hj hij.symm)

/-- Witness for C10 at a concrete run: three empty slots, acquisition of
index 1, successful flush — slots 0 and 2 are untouched. -/
theorem C10_witness :
    ((RenderLoop.new 3).update (.ok 1 false) .ok).1 =
      some (⟨false, false, [none, some 0, none], 1, 1⟩ : RenderLoop) ∧
    ((⟨false, false, [none, some 0, none], 1, 1⟩ : RenderLoop).fences.length =
        (RenderLoop.new 3).fences.length ∧
      (AcquireResult.ok 1 false = AcquireResult.outOfDate →
        (⟨false, false, [none, some 0, none], 1, 1⟩ : RenderLoop).fences =
            (RenderLoop.new 3).fences ∧
          (⟨false, false, [none, some 0, none], 1, 1⟩ : RenderLoop).previous_fence_i =
            (RenderLoop.new 3).previous_fence_i) ∧
      (∀ i sub, AcquireResult.ok 1 false = AcquireResult.ok i sub → ∀ j, j ≠ i →
        slotGet (⟨false, false, [none, some 0, none], 1, 1⟩ : RenderLoop).fences j =
          slotGet (RenderLoop.new 3).fences j)) :=
  ⟨by decide, C10_update_touches_one_slot (RenderLoop.new 3) (.ok 1 false) .ok _ (by decide)⟩

/-- Count of submissions in the rebuild phase: none. -/
theorem countP_submit_pre (s : RenderLoop) :
    (s.preRebuild).2.countP (fun e => e.isSubmit) = 0 := by
  unfold RenderLoop.preRebuild
  split
  · rfl
  · split <;> rfl

/-- No element of the rebuild phase is the abort event. -/
theorem fatal_not_mem_pre (s : RenderLoop) : Event.fatal ∉ (s.preRebuild).2 := by
  intro hC
  exact (isRebuild_spec _ (preRebuild_events_rebuild s _ hC)).2.2.2 rfl

/-- C3 counterexample: the claim that every non-out-of-date submission
error is fatal fails on the code — at this concrete cycle the flush
fails with an error other than `OutOfDate`, yet the update returns a
state (the loop continues) and no panic occurs. -/
theorem C3_counterexample :
    ((RenderLoop.new 3).update (.ok 0 false) .otherError).1.isSome = true ∧
    Event.fatal ∉ ((RenderLoop.new 3).update (.ok 0 false) .otherError).2 := by
  decide

/-- C3 amended: a non-out-of-date acquisition error is fatal — the
update panics and the process terminates; a non-out-of-date
submission/presentation error is not fatal — it is printed, the frame
slot at the acquired index is cleared, and the loop continues; and no
retry occurs for any error: a cycle submits at most once, and a cycle
whose acquisition failed submits nothing. -/
theorem C3_amended_acq_fatal_flush_logged (s : RenderLoop) (fr : FlushResult) (i : Nat)
    (sub : Bool) (hi : i < s.fences.length) :
    ((s.update .otherError fr).1 = none ∧ Event.fatal ∈ (s.update .otherError fr).2) ∧
    (∃ s', (s.update (.ok i sub) .otherError).1 = some s' ∧
      Event.printError ∈ (s.update (.ok i sub) .otherError).2 ∧
      slotGet s'.fences i = none ∧
      Event.fatal ∉ (s.update (.ok i sub) .otherError).2) ∧
    ((s.update (.ok i sub) fr).2.countP (fun e => e.isSubmit) ≤ 1 ∧
      (s.update .otherError fr).2.countP (fun e => e.isSubmit) = 0 ∧
      (s.update .outOfDate fr).2.countP (fun e => e.isSubmit) = 0) := by
  obtain ⟨hnone, htrE⟩ := update_acqErr_spec s fr
  obtain ⟨sO, hO1, hOrc, hOfen, hOprev, hOnext, htrO⟩ := update_outOfDate_spec s fr
  refine ⟨⟨hnone, by rw [htrE]; simp⟩, ?_, ?_, ?_, ?_⟩
  · obtain ⟨s', h1, hfen, hprev, hnext, hrc, htr⟩ := update_ok_spec s i sub .otherError
    refine ⟨s', h1, by rw [htr]; simp, ?_, ?_⟩
    · rw [hfen]
      simpa using slotGet_set_self s.fences i _ hi
    · rw [htr]
      rcases h2 : slotGet s.fences i with _ | f2 <;>
        rcases h3 : slotGet s.fences s.previous_fence_i with _ | f3 <;>
          simp [h2, h3] <;> exact fatal_not_mem_pre s
  · obtain ⟨s', h1, hfen, hprev, hnext, hrc, htr⟩ := update_ok_spec s i sub fr
    rw [htr]
    rcases h2 : slotGet s.fences i with _ | f2 <;>
      rcases h3 : slotGet s.fences s.previous_fence_i with _ | f3 <;>
        cases fr <;>
          (simp [h2, h3, List.countP_append, List.countP_cons, countP_submit_pre,
              Event.isSubmit] <;>
            exact fun a ha => (isRebuild_spec a (preRebuild_events_rebuild s a ha)).1)
  · rw [htrE]
    simp [List.countP_append, List.countP_cons, countP_submit_pre, Event.isSubmit]
    exact fun a ha => (isRebuild_spec a (preRebuild_events_rebuild s a ha)).1
  · rw [htrO]
    simp [List.countP_append, List.countP_cons, countP_submit_pre, Event.isSubmit]
    exact fun a ha => (isRebuild_spec a (preRebuild_events_rebuild s a ha)).1

/-- Witness for the amended C3 at a concrete run: three empty slots,
acquisition of index 0, flush failing with a non-out-of-date error. -/
theorem C3_witness :
    0 < (RenderLoop.new 3).fences.length ∧
    ((((RenderLoop.new 3).update .otherError .ok).1 = none ∧
        Event.fatal ∈ ((RenderLoop.new 3).update .otherError .ok).2) ∧
      (∃ s', ((RenderLoop.new 3).update (.ok 0 false) .otherError).1 = some s' ∧
        Event.printError ∈ ((RenderLoop.new 3).update (.ok 0 false) .otherError).2 ∧
        slotGet s'.fences 0 = none ∧
        Event.fatal ∉ ((RenderLoop.new 3).update (.ok 0 false) .otherError).2) ∧
      (((RenderLoop.new 3).update (.ok 0 false) .ok).2.countP (fun e => e.isSubmit) ≤ 1 ∧
        ((RenderLoop.new 3).update .otherError .ok).2.countP (fun e => e.isSubmit) = 0 ∧
        ((RenderLoop.new 3).update .outOfDate .ok).2.countP (fun e => e.isSubmit) = 0)) :=
  ⟨by decide, C3_amended_acq_fatal_flush_logged (RenderLoop.new 3) .ok 0 false (by decide)⟩

/-- One successful cycle of the loop: the state after an update whose
acquisition returned the given index with a successful flush (the update
never panics in this case, so the fallback is irrelevant). -/
def c5step (s : RenderLoop) (i : Nat) : RenderLoop :=
  ((s.update (.ok i false) .ok).1).getD s

/-- C5: with 3 frame slots all initially empty, three successful cycles
acquiring three pairwise distinct indices never wait on a slot, and a
fourth cycle targeting any (necessarily reused) index finds a stored
completion signal in its slot and waits on it. -/
theorem C5_fresh_slots_no_wait_reuse_waits (i1 i2 i3 j : Fin 3) (fr : FlushResult)
    (h12 : i1 ≠ i2) (h13 : i1 ≠ i3) (h23 : i2 ≠ i3) :
    (((RenderLoop.new 3).update (.ok i1 false) .ok).1.isSome = true ∧
      (((RenderLoop.new 3).update (.ok i1 false) .ok).2.all fun e => !e.isWait) = true) ∧
    (((c5step (RenderLoop.new 3) i1).update (.ok i2 false) .ok).1.isSome = true ∧
      (((c5step (RenderLoop.new 3) i1).update (.ok i2 false) .ok).2.all
        fun e => !e.isWait) = true) ∧
    (((c5step (c5step (RenderLoop.new 3) i1) i2).update (.ok i3 false) .ok).1.isSome = true ∧
      (((c5step (c5step (RenderLoop.new 3) i1) i2).update (.ok i3 false) .ok).2.all
        fun e => !e.isWait) = true) ∧
    ((slotGet (c5step (c5step (c5step (RenderLoop.new 3) i1) i2) i3).fences j).isSome = true ∧
      Event.waitFence
          ((slotGet (c5step (c5step (c5step (RenderLoop.new 3) i1) i2) i3).fences j).getD 0) ∈
        ((c5step (c5step (c5step (RenderLoop.new 3) i1) i2) i3).update (.ok j false) fr).2) := by
  cases fr <;> (revert h12 h13 h23; revert i1 i2 i3 j; decide)

/-- Witness for C5 at the concrete run acquiring indices 0, 1, 2 and
then reusing index 0. -/
theorem C5_witness :
    ((0 : Fin 3) ≠ (1 : Fin 3) ∧ (0 : Fin 3) ≠ (2 : Fin 3) ∧ (1 : Fin 3) ≠ (2 : Fin 3)) ∧
    ((((RenderLoop.new 3).update (.ok (0 : Fin 3) false) .ok).1.isSome = true ∧
      (((RenderLoop.new 3).update (.ok (0 : Fin 3) false) .ok).2.all
        fun e => !e.isWait) = true) ∧
    (((c5step (RenderLoop.new 3) (0 : Fin 3)).update (.ok (1 : Fin 3) false) .ok).1.isSome
        = true ∧
      (((c5step (RenderLoop.new 3) (0 : Fin 3)).update (.ok (1 : Fin 3) false) .ok).2.all
        fun e => !e.isWait) = true) ∧
    (((c5step (c5step (RenderLoop.new 3) (0 : Fin 3)) (1 : Fin 3)).update
          (.ok (2 : Fin 3) false) .ok).1.isSome = true ∧
      (((c5step (c5step (RenderLoop.new 3) (0 : Fin 3)) (1 : Fin 3)).update
          (.ok (2 : Fin 3) false) .ok).2.all fun e => !e.isWait) = true) ∧
    ((slotGet (c5step (c5step (c5step (RenderLoop.new 3) (0 : Fin 3)) (1 : Fin 3))
          (2 : Fin 3)).fences (0 : Fin 3)).isSome = true ∧
      Event.waitFence
          ((slotGet (c5step (c5step (c5step (RenderLoop.new 3) (0 : Fin 3)) (1 : Fin 3))
              (2 : Fin 3)).fences (0 : Fin 3)).getD 0) ∈
        ((c5step (c5step (c5step (RenderLoop.new 3) (0 : Fin 3)) (1 : Fin 3))
            (2 : Fin 3)).update (.ok (0 : Fin 3) false) .ok).2)) :=
  ⟨⟨by decide, by decide, by decide⟩,
    C5_fresh_slots_no_wait_reuse_waits 0 1 2 0 .ok (by decide) (by decide) (by decide)⟩

/-- A successful lookup returns an entry of the list. -/
theorem assocFind_mem : ∀ (l : List (String × String)) (k v : String),
    assocFind k l = some v → (k, v) ∈ l
  | [], _, _, h => by cases h
  | (k', v') :: rest, k, v, h => by
      by_cases hk : k' = k
      · subst hk
        simp [assocFind] at h
        subst h
        exact List.mem_cons_self _ _
      · simp [assocFind, hk] at h
        exact List.mem_cons_of_mem _ (assocFind_mem rest k v h)

/-- `main_template` leaves the guide cache unchanged. -/
theorem main_template_guideC (R : Renders) (c : Caches) (b : String) :
    ((main_template R c b).2).guideC = c.guideC := by
  unfold main_template
  cases h : assocFind b c.mainC <;> simp [h]

/-- `main_template` leaves the markdown cache unchanged. -/
theorem main_template_mdC (R : Renders) (c : Caches) (b : String) :
    ((main_template R c b).2).mdC = c.mdC := by
  unfold main_template
  cases h : assocFind b c.mainC <;> simp [h]

/-- `guide_template` leaves the markdown cache unchanged. -/
theorem guide_template_mdC (R : Renders) (c : Caches) (b : String) :
    ((guide_template R c b).2).mdC = c.mdC := by
  unfold guide_template
  cases h : assocFind b c.guideC <;> simp [h, main_template_mdC]

/-- Serving the same body through `main_template` a second time hits the
cache and changes nothing. -/
theorem main_template_idem (R : Renders) (c : Caches) (b : String) :
    main_template R ((main_template R c b).2) b = main_template R c b := by
  unfold main_template
  cases h : assocFind b c.mainC with
  | some v => simp [h]
  | none => simp [h, assocFind]

/-- Serving the same body through `guide_template` a second time hits the
caches and changes nothing. -/
theorem guide_template_idem (R : Renders) (c : Caches) (b : String) :
    guide_template R ((guide_template R c b).2) b = guide_template R c b := by
  unfold guide_template
  cases h : assocFind b c.guideC with
  | some v =>
      rw [main_template_guideC, h]
      exact main_template_idem R c v
  | none =>
      rw [main_template_guideC]
      simp only [h, assocFind, if_pos rfl]
      exact main_template_idem R _ _

/-- Serving the same body through `guide_template_markdown` a second time
hits the caches and changes nothing. -/
theorem guide_template_markdown_idem (R : Renders) (c : Caches) (b : String) :
    guide_template_markdown R ((guide_template_markdown R c b).2) b =
      guide_template_markdown R c b := by
  unfold guide_template_markdown
  cases h : assocFind b c.mdC with
  | some v =>
      rw [guide_template_mdC, h]
      exact guide_template_idem R c v
  | none =>
      rw [guide_template_mdC]
      simp only [h, assocFind, if_pos rfl]
      exact guide_template_idem R _ _

/-- On well-formed main entries, `main_template` responds with the
rendered main template of the body, whether or not the cache hits. -/
theorem main_template_out (R : Renders) (c : Caches) (b : String)
    (hm : ∀ kv ∈ c.mainC, kv.2 = R.renderMain kv.1) :
    (main_template R c b).1 = Response.html (R.renderMain b) := by
  unfold main_template
  cases h : assocFind b c.mainC with
  | some v =>
      have hv := hm (b, v) (assocFind_mem _ _ _ h)
      simp at hv
      simp [h, hv]
  | none => simp [h]

/-- On well-formed main and guide entries, `guide_template` responds with
the guide body rendered through both templates. -/
theorem guide_template_out (R : Renders) (c : Caches) (b : String)
    (hm : ∀ kv ∈ c.mainC, kv.2 = R.renderMain kv.1)
    (hg : ∀ kv ∈ c.guideC, kv.2 = R.renderGuide kv.1) :
    (guide_template R c b).1 = Response.html (R.renderMain (R.renderGuide b)) := by
  unfold guide_template
  cases h : assocFind b c.guideC with
  | some v =>
      have hv := hg (b, v) (assocFind_mem _ _ _ h)
      simp at hv
      subst hv
      exact main_template_out R c _ hm
  | none =>
      exact main_template_out R _ _ hm

/-- On well-formed caches, `guide_template_markdown` responds with the
Markdown body converted to HTML and rendered through both templates. -/
theorem guide_template_markdown_out (R : Renders) (c : Caches) (b : String)
    (hm : ∀ kv ∈ c.mainC, kv.2 = R.renderMain kv.1)
    (hg : ∀ kv ∈ c.guideC, kv.2 = R.renderGuide kv.1)
    (hd : ∀ kv ∈ c.mdC, kv.2 = R.renderMd kv.1) :
    (guide_template_markdown R c b).1 =
      Response.html (R.renderMain (R.renderGuide (R.renderMd b))) := by
  unfold guide_template_markdown
  cases h : assocFind b c.mdC with
  | some v =>
      have hv := hd (b, v) (assocFind_mem _ _ _ h)
      simp at hv
      subst hv
      exact guide_template_out R c _ hm hg
  | none =>
      exact guide_template_out R _ _ hm hg

/-- Concrete renderers used to instantiate witnesses: injective tagging
of the body by each external renderer. -/
def wRenders : Renders :=
  ⟨fun s => String.append "M" s, fun s => String.append "G" s, fun s => String.append "D" s⟩

/-- Concrete well-formed caches used to instantiate witnesses. -/
def wCaches : Caches := ⟨[("x", "Mx")], [("y", "Gy")], [("z", "Dz")]⟩

/-- C9: when every cache entry is the rendering of its key, the response
of each template function on any body is byte-for-byte the response of
the cache-miss rendering from empty caches: the memoization never changes
the returned HTML. -/
theorem C9_cached_response_equals_first_render (R : Renders) (c : Caches) (b : String)
    (hm : ∀ kv ∈ c.mainC, kv.2 = R.renderMain kv.1)
    (hg : ∀ kv ∈ c.guideC, kv.2 = R.renderGuide kv.1)
    (hd : ∀ kv ∈ c.mdC, kv.2 = R.renderMd kv.1) :
    (main_template R c b).1 = (main_template R Caches.empty b).1 ∧
    (guide_template R c b).1 = (guide_template R Caches.empty b).1 ∧
    (guide_template_markdown R c b).1 = (guide_template_markdown R Caches.empty b).1 := by
  have hme : ∀ kv ∈ (Caches.empty).mainC, kv.2 = R.renderMain kv.1 := by
    intro kv hkv; cases hkv
  have hge : ∀ kv ∈ (Caches.empty).guideC, kv.2 = R.renderGuide kv.1 := by
    intro kv hkv; cases hkv
  have hde : ∀ kv ∈ (Caches.empty).mdC, kv.2 = R.renderMd kv.1 := by
    intro kv hkv; cases hkv
  refine ⟨?_, ?_, ?_⟩
  · rw [main_template_out R c b hm, main_template_out R Caches.empty b hme]
  · rw [guide_template_out R c b hm hg, guide_template_out R Caches.empty b hme hge]
  · rw [guide_template_markdown_out R c b hm hg hd,
      guide_template_markdown_out R Caches.empty b hme hge hde]

/-- Witness for C9 at concrete renderers, a concrete well-formed cache
and a concrete body. -/
theorem C9_witness :
    (∀ kv ∈ wCaches.mainC, kv.2 = wRenders.renderMain kv.1) ∧
    (∀ kv ∈ wCaches.guideC, kv.2 = wRenders.renderGuide kv.1) ∧
    (∀ kv ∈ wCaches.mdC, kv.2 = wRenders.renderMd kv.1) ∧
    ((main_template wRenders wCaches "x").1 =
        (main_template wRenders Caches.empty "x").1 ∧
      (guide_template wRenders wCaches "y").1 =
        (guide_template wRenders Caches.empty "y").1 ∧
      (guide_template_markdown wRenders wCaches "z").1 =
        (guide_template_markdown wRenders Caches.empty "z").1) :=
  ⟨by decide, by decide, by decide,
    C9_cached_response_equals_first_render wRenders wCaches "x" (by decide) (by decide)
      (by decide) |>.1,
    C9_cached_response_equals_first_render wRenders wCaches "y" (by decide) (by decide)
      (by decide) |>.2.1,
    C9_cached_response_equals_first_render wRenders wCaches "z" (by decide) (by decide)
      (by decide) |>.2.2⟩

/-- C8 counterexample: the output cache is not keyed by the request path
and does not hold one entry per path.  The two distinct matched paths
`/guide/windowing` and `/guide/windowing/introduction` have the same
route target (the same `include_str!` content file), and after serving
both from empty caches the markdown cache holds a single entry — not the
two entries a per-path cache would hold — and no entry is keyed by the
request path. -/
theorem C8_counterexample :
    "/guide/windowing" ≠ "/guide/windowing/introduction" ∧
    routeOf "GET" "/guide/windowing" = routeOf "GET" "/guide/windowing/introduction" ∧
    ¬ ((routes wRenders (fun p => p)
          (routes wRenders (fun p => p) Caches.empty "GET" "/guide/windowing").2
          "GET" "/guide/windowing/introduction").2.mdC.length = 2) ∧
    (routes wRenders (fun p => p)
        (routes wRenders (fun p => p) Caches.empty "GET" "/guide/windowing").2
        "GET" "/guide/windowing/introduction").2.mdC.length = 1 ∧
    assocFind "/guide/windowing"
      (routes wRenders (fun p => p)
          (routes wRenders (fun p => p) Caches.empty "GET" "/guide/windowing").2
          "GET" "/guide/windowing/introduction").2.mdC = none := by
  decide

/-- C8 amended: every matched request is rendered through the two-level
template (outer main template over the guide template, after Markdown
conversion for guide routes), and the caches are keyed by the content
body, one entry per distinct body — so a repeated request to the same
path, and more generally any request with the same route target, is
served from the caches byte-for-byte identically and leaves the caches
unchanged. -/
theorem C8_amended_two_level_render_cache_by_body (R : Renders) (contents : String → String)
    (c : Caches) (method path : String)
    (hm : ∀ kv ∈ c.mainC, kv.2 = R.renderMain kv.1)
    (hg : ∀ kv ∈ c.guideC, kv.2 = R.renderGuide kv.1)
    (hd : ∀ kv ∈ c.mdC, kv.2 = R.renderMd kv.1) :
    (∀ file, routeOf method path = RouteTarget.guidePage file →
      (routes R contents c method path).1 =
        Response.html (R.renderMain (R.renderGuide (R.renderMd (contents file))))) ∧
    (∀ file, routeOf method path = RouteTarget.page file →
      (routes R contents c method path).1 = Response.html (R.renderMain (contents file))) ∧
    (∀ method' path', routeOf method' path' = routeOf method path →
      routes R contents (routes R contents c method path).2 method' path' =
        routes R contents c method path) := by
  refine ⟨?_, ?_, ?_⟩
  · intro file hr
    unfold routes
    rw [hr]
    exact guide_template_markdown_out R c _ hm hg hd
  · intro file hr
    unfold routes
    rw [hr]
    exact main_template_out R c _ hm
  · intro m' p' hr
    unfold routes
    rw [hr]
    cases ht : routeOf method path with
    | page file => exact main_template_idem R c (contents file)
    | guidePage file => exact guide_template_markdown_idem R c (contents file)
    | notFound =>
        rcases h404 : main_template R c (contents "../content/404.html") with ⟨r4, c4⟩
        have hid := main_template_idem R c (contents "../content/404.html")
        rw [h404] at hid
        simp [h404, hid]

/-- Witness for the amended C8 at concrete renderers, a concrete
well-formed cache and the `/guide/windowing` route. -/
theorem C8_witness :
    (∀ kv ∈ wCaches.mainC, kv.2 = wRenders.renderMain kv.1) ∧
    (∀ kv ∈ wCaches.guideC, kv.2 = wRenders.renderGuide kv.1) ∧
    (∀ kv ∈ wCaches.mdC, kv.2 = wRenders.renderMd kv.1) ∧
    ((∀ file, routeOf "GET" "/guide/windowing" = RouteTarget.guidePage file →
        (routes wRenders (fun p => p) wCaches "GET" "/guide/windowing").1 =
          Response.html (wRenders.renderMain (wRenders.renderGuide
            (wRenders.renderMd ((fun p : String => p) file))))) ∧
      (∀ file, routeOf "GET" "/guide/windowing" = RouteTarget.page file →
        (routes wRenders (fun p => p) wCaches "GET" "/guide/windowing").1 =
          Response.html (wRenders.renderMain ((fun p : String => p) file))) ∧
      (∀ method' path', routeOf method' path' = routeOf "GET" "/guide/windowing" →
        routes wRenders (fun p => p)
            (routes wRenders (fun p => p) wCaches "GET" "/guide/windowing").2 method' path' =
          routes wRenders (fun p => p) wCaches "GET" "/guide/windowing")) :=
  ⟨by decide, by decide, by decide,
    C8_amended_two_level_render_cache_by_body wRenders (fun p => p) wCaches "GET"
      "/guide/windowing" (by decide) (by decide) (by decide)⟩

/-- Witness for C6 at a concrete state with the resize flag pending. -/
theorem C6_witness :
    (⟨false, true, [none], 0, 0⟩ : RenderLoop).handle_window_resize =
      { (⟨false, true, [none], 0, 0⟩ : RenderLoop) with window_resized := true } ∧
    (∃ rest, ((⟨false, true, [none], 0, 0⟩ : RenderLoop).update .outOfDate .ok).2 =
        ((⟨false, true, [none], 0, 0⟩ : RenderLoop).preRebuild).2 ++ Event.acquire :: rest ∧
      ∀ e ∈ rest, e.isRebuild = false) ∧
    ((⟨false, true, [none], 0, 0⟩ : RenderLoop).window_resized = true →
      Event.handleResize ∈ ((⟨false, true, [none], 0, 0⟩ : RenderLoop).preRebuild).2) :=
  C6_resize_defers_rebuild_to_cycle_start ⟨false, true, [none], 0, 0⟩ .outOfDate .ok
